import Mathlib

/-!
Shallow embedding of the parenting-bot application (src/main.py) and proofs
of its specified properties.

The program is a Streamlit form-then-chat app.  Its reproducible core is:
  - a pure prompt composer `create_system_prompt`;
  - a session state record mutated by form submission, chat initialization,
    per-turn chat input handling, and reset;
  - one remote chat-completion call per turn, wrapped in try/except.

Python strings are modelled as Lean `String`; Python `None` for an optional
string as `Option.none`; Python truthiness of a string (`if s:`) as `s ≠ ""`;
Python list truthiness (`if l:`) as `l ≠ []`.  The remote service is modelled
as an oracle `CompletionParams → ApiOutcome` supplied to each turn.
-/

/-- Model of Python `str.lower()` (ASCII case mapping, via `Char.toLower`). -/
def pyLower (s : String) : String := ⟨s.data.map Char.toLower⟩

/-- Whitespace characters removed by Python `str.strip()` (ASCII whitespace:
space, tab, newline, carriage return, vertical tab, form feed). -/
def pyIsSpace (ch : Char) : Bool :=
  ch = ' ' || ch = '\t' || ch = '\n' || ch = '\r' || ch = Char.ofNat 11 || ch = Char.ofNat 12

/-- Model of Python `str.strip()`: drop whitespace from both ends. -/
def pyStrip (s : String) : String :=
  ⟨((s.data.dropWhile pyIsSpace).reverse.dropWhile pyIsSpace).reverse⟩

/-- The model identifier constant `DEFAULT_MODEL` (main.py line 10). -/
def DEFAULT_MODEL : String := "llama3-8b-8192"

/-- The age-range options of the form selectbox (main.py lines 108-112). -/
def age_options : List String :=
  [ "Not specified", "Newborn (0-3 months)", "Infant (3-12 months)",
    "Toddler (1-3 years)", "Preschooler (3-5 years)",
    "School-Age (6-12 years)", "Teenager (13+ years)"]

/-- The temperament options of the form multiselect (main.py lines 121-124). -/
def temperament_options : List String :=
  [ "Easygoing / Adaptable", "Active / Energetic", "Shy / Cautious",
    "Intense / Sensitive", "Distractible", "Persistent / Strong-willed"]

/-- The fixed opening sentences of the system prompt (main.py lines 53-59). -/
def personaLines : List String :=
  [ "You are a helpful, empathetic, and knowledgeable AI assistant specializing in providing personalized parenting tips and advice.",
    "Your tone should be supportive, understanding, and non-judgmental.",
    "Focus on practical, actionable suggestions and positive reinforcement techniques.",
    "Avoid overly technical jargon unless explaining a specific concept clearly.",
    "Respond concisely but thoroughly to user questions about parenting challenges and strategies."]

/-- The age-tailoring sentence (main.py line 63), parametrized by the age range. -/
def ageSentence (r : String) : String :=
  "The user is specifically asking for advice related to a child in the " ++
    (r ++ " age range. Tailor your advice significantly based on this developmental stage.")

/-- The fallback age sentence (main.py line 65). -/
def fallbackAgeSentence : String :=
  "The user has not specified a child's age range, so provide general advice or ask for clarification if age is crucial for the specific question."

/-- The temperament sentence (main.py lines 68-69), parametrized by the traits list,
which is comma-joined in input order. -/
def traitsSentence (temperament_traits : List String) : String :=
  "The child's temperament is described as: " ++
    (String.intercalate ", " temperament_traits ++
      ". Keep these traits in mind when suggesting communication styles, activities, and discipline strategies.")

/-- The current-challenges sentence (main.py line 72), parametrized by the quoted text. -/
def challengesSentence (t : String) : String :=
  "The parent mentioned they are currently focusing on or facing challenges with: '" ++
    (t ++ "'. Try to address this area proactively if relevant to the user's questions, or use it as context for your advice.")

/-- The closing safety sentence (main.py line 74). -/
def safetySentence : String :=
  "Always prioritize safety and well-being in your advice. If a topic seems potentially serious (e.g., medical issues, severe behavioral problems), gently suggest consulting a professional (pediatrician, therapist, etc.)."

/-- The age slot of the prompt (main.py lines 62-65): the tailoring sentence when the
age range is truthy and not the sentinel, the fallback sentence otherwise. -/
def ageLine (child_age_range : Option String) : String :=
  match child_age_range with
  | some r => if r ≠ "" ∧ r ≠ "Not specified" then ageSentence r else fallbackAgeSentence
  | none => fallbackAgeSentence

/-- The ordered sentence sequence built by `create_system_prompt` (main.py lines 51-74):
persona sentences, then the age slot, then the temperament sentence when the traits
list is non-empty, then the challenges sentence when the input is truthy with truthy
strip, then the safety sentence. -/
def create_system_prompt_lines (child_age_range : Option String)
    (temperament_traits : List String) (current_challenges : String) : List String :=
  personaLines ++ [ageLine child_age_range]
    ++ (if temperament_traits ≠ [] then [traitsSentence temperament_traits] else [])
    ++ (if current_challenges ≠ "" ∧ pyStrip current_challenges ≠ "" then
          [challengesSentence (pyStrip current_challenges)] else [])
    ++ [safetySentence]

/-- Function create_system_prompt (main.py lines 51-76): the sentence sequence joined
with newlines. -/
def create_system_prompt (child_age_range : Option String)
    (temperament_traits : List String) (current_challenges : String) : String :=
  String.intercalate "\n" (create_system_prompt_lines child_age_range temperament_traits current_challenges)

/-- The age inputs quantified over by the spec: the form enumeration
(which contains the sentinel "Not specified") together with `none`. -/
def ageInputs : List (Option String) := none :: age_options.map some

/-- Character at a given index of a string, as an option. -/
def charAt (s : String) (n : Nat) : Option Char := s.data[n]?

lemma data_append (s t : String) : (s ++ t).data = s.data ++ t.data := by
  cases s; cases t; rfl

lemma ne_of_charAt_ne {s t : String} (n : Nat) (h : charAt s n ≠ charAt t n) : s ≠ t :=
  fun e => h (by rw [e])

lemma charAt_append_left (s t : String) (n : Nat) (h : n < s.data.length) :
    charAt (s ++ t) n = charAt s n := by
  unfold charAt
  rw [data_append]
  exact List.getElem?_append_left h

lemma string_ext {s t : String} (h : s.data = t.data) : s = t := String.ext h

lemma charAt_ageSentence_four (r : String) : charAt (ageSentence r) 4 = some 'u' := by
  unfold ageSentence
  rw [charAt_append_left _ _ 4 (by decide)]
  decide

lemma charAt_ageSentence_nine (r : String) : charAt (ageSentence r) 9 = some 'i' := by
  unfold ageSentence
  rw [charAt_append_left _ _ 9 (by decide)]
  decide

lemma charAt_traitsSentence_four (ts : List String) : charAt (traitsSentence ts) 4 = some 'c' := by
  unfold traitsSentence
  rw [charAt_append_left _ _ 4 (by decide)]
  decide

lemma charAt_challengesSentence_four (t : String) : charAt (challengesSentence t) 4 = some 'p' := by
  unfold challengesSentence
  rw [charAt_append_left _ _ 4 (by decide)]
  decide

set_option maxRecDepth 4000 in
lemma persona_charAt_four : ∀ x ∈ personaLines,
    charAt x 4 ≠ some 'u' ∧ charAt x 4 ≠ some 'c' ∧ charAt x 4 ≠ some 'p' := by
  decide

set_option maxRecDepth 4000 in
lemma safety_charAt_four :
    charAt safetySentence 4 ≠ some 'u' ∧ charAt safetySentence 4 ≠ some 'c' ∧
      charAt safetySentence 4 ≠ some 'p' := by
  decide

set_option maxRecDepth 4000 in
lemma fallback_charAt : charAt fallbackAgeSentence 4 = some 'u' ∧
    charAt fallbackAgeSentence 9 = some 'h' := by
  decide

lemma ageSentence_inj {r r' : String} (h : ageSentence r = ageSentence r') : r = r' := by
  unfold ageSentence at h
  have h1 := congrArg String.data h
  rw [data_append, data_append, data_append, data_append] at h1
  exact string_ext (List.append_cancel_right (List.append_cancel_left h1))

lemma challengesSentence_inj {t t' : String}
    (h : challengesSentence t = challengesSentence t') : t = t' := by
  unfold challengesSentence at h
  have h1 := congrArg String.data h
  rw [data_append, data_append, data_append, data_append] at h1
  exact string_ext (List.append_cancel_right (List.append_cancel_left h1))

lemma traitsSentence_eq {l ts : List String}
    (h : traitsSentence l = traitsSentence ts) :
    String.intercalate ", " l = String.intercalate ", " ts := by
  unfold traitsSentence at h
  have h1 := congrArg String.data h
  rw [data_append, data_append, data_append, data_append] at h1
  exact string_ext (List.append_cancel_right (List.append_cancel_left h1))

lemma mem_create_system_prompt_lines {x : String} {a : Option String}
    {ts : List String} {c : String} :
    x ∈ create_system_prompt_lines a ts c ↔
      (x ∈ personaLines ∨ x = ageLine a ∨
        (ts ≠ [] ∧ x = traitsSentence ts) ∨
        ((c ≠ "" ∧ pyStrip c ≠ "") ∧ x = challengesSentence (pyStrip c)) ∨
        x = safetySentence) := by
  unfold create_system_prompt_lines
  by_cases hts : ts = [] <;> by_cases hc : c ≠ "" ∧ pyStrip c ≠ "" <;>
    simp [hts, hc, List.mem_append, or_assoc]

lemma ageLine_none : ageLine none = fallbackAgeSentence := rfl

lemma ageLine_some (v : String) :
    ageLine (some v) =
      if v ≠ "" ∧ v ≠ "Not specified" then ageSentence v else fallbackAgeSentence := rfl

lemma ageSentence_ne_fallback (r : String) : ageSentence r ≠ fallbackAgeSentence :=
  ne_of_charAt_ne 9 (by rw [charAt_ageSentence_nine, fallback_charAt.2]; decide)

lemma ageSentence_ne_traits (r : String) (ts : List String) :
    ageSentence r ≠ traitsSentence ts :=
  ne_of_charAt_ne 4 (by rw [charAt_ageSentence_four, charAt_traitsSentence_four]; decide)

lemma ageSentence_ne_challenges (r t : String) : ageSentence r ≠ challengesSentence t :=
  ne_of_charAt_ne 4 (by rw [charAt_ageSentence_four, charAt_challengesSentence_four]; decide)

lemma ageSentence_ne_safety (r : String) : ageSentence r ≠ safetySentence :=
  ne_of_charAt_ne 4 (by
    rw [charAt_ageSentence_four]; exact fun e => safety_charAt_four.1 e.symm)

lemma ageSentence_notMem_persona (r : String) : ageSentence r ∉ personaLines :=
  fun h => (persona_charAt_four _ h).1 (charAt_ageSentence_four r)

lemma traitsSentence_notMem_persona (ts : List String) : traitsSentence ts ∉ personaLines :=
  fun h => (persona_charAt_four _ h).2.1 (charAt_traitsSentence_four ts)

lemma challengesSentence_notMem_persona (t : String) : challengesSentence t ∉ personaLines :=
  fun h => (persona_charAt_four _ h).2.2 (charAt_challengesSentence_four t)

lemma traitsSentence_ne_fallback (ts : List String) :
    traitsSentence ts ≠ fallbackAgeSentence :=
  ne_of_charAt_ne 4 (by rw [charAt_traitsSentence_four, fallback_charAt.1]; decide)

lemma traitsSentence_ne_challenges (ts : List String) (t : String) :
    traitsSentence ts ≠ challengesSentence t :=
  ne_of_charAt_ne 4 (by rw [charAt_traitsSentence_four, charAt_challengesSentence_four]; decide)

lemma traitsSentence_ne_safety (ts : List String) : traitsSentence ts ≠ safetySentence :=
  ne_of_charAt_ne 4 (by
    rw [charAt_traitsSentence_four]; exact fun e => safety_charAt_four.2.1 e.symm)

lemma challengesSentence_ne_fallback (t : String) :
    challengesSentence t ≠ fallbackAgeSentence :=
  ne_of_charAt_ne 4 (by rw [charAt_challengesSentence_four, fallback_charAt.1]; decide)

lemma challengesSentence_ne_safety (t : String) : challengesSentence t ≠ safetySentence :=
  ne_of_charAt_ne 4 (by
    rw [charAt_challengesSentence_four]; exact fun e => safety_charAt_four.2.2 e.symm)

set_option maxRecDepth 4000 in
lemma fallback_notMem_persona : fallbackAgeSentence ∉ personaLines := by decide

set_option maxRecDepth 4000 in
lemma fallback_ne_safety : fallbackAgeSentence ≠ safetySentence := by decide

lemma ageSentence_mem_iff (r : String) (a : Option String) (ts : List String) (c : String) :
    ageSentence r ∈ create_system_prompt_lines a ts c ↔
      (a = some r ∧ r ≠ "" ∧ r ≠ "Not specified") := by
  rw [mem_create_system_prompt_lines]
  constructor
  · rintro (h | h | ⟨hts, h⟩ | ⟨hc, h⟩ | h)
    · exact absurd h (ageSentence_notMem_persona r)
    · cases a with
      | none => rw [ageLine_none] at h; exact absurd h (ageSentence_ne_fallback r)
      | some v =>
        rw [ageLine_some] at h
        by_cases hv : v ≠ "" ∧ v ≠ "Not specified"
        · rw [if_pos hv] at h
          rcases ageSentence_inj h with rfl
          exact ⟨rfl, hv⟩
        · rw [if_neg hv] at h
          exact absurd h (ageSentence_ne_fallback r)
    · exact absurd h (ageSentence_ne_traits r ts)
    · exact absurd h (ageSentence_ne_challenges r _)
    · exact absurd h (ageSentence_ne_safety r)
  · rintro ⟨rfl, h1, h2⟩
    refine Or.inr (Or.inl ?_)
    rw [ageLine_some, if_pos ⟨h1, h2⟩]

lemma fallback_mem_iff (a : Option String) (ts : List String) (c : String) :
    fallbackAgeSentence ∈ create_system_prompt_lines a ts c ↔
      (∀ r, a = some r → (r = "" ∨ r = "Not specified")) := by
  rw [mem_create_system_prompt_lines]
  constructor
  · rintro (h | h | ⟨hts, h⟩ | ⟨hc, h⟩ | h)
    · exact absurd h fallback_notMem_persona
    · cases a with
      | none => exact fun r hr => Option.noConfusion hr
      | some v =>
        rw [ageLine_some] at h
        by_cases hv : v ≠ "" ∧ v ≠ "Not specified"
        · rw [if_pos hv] at h
          exact absurd h.symm (ageSentence_ne_fallback v)
        · intro r hr
          rcases Option.some.inj hr with rfl
          rcases not_and_or.1 hv with h1 | h1
          · exact Or.inl (not_not.1 h1)
          · exact Or.inr (not_not.1 h1)
    · exact absurd h.symm (traitsSentence_ne_fallback ts)
    · exact absurd h.symm (challengesSentence_ne_fallback _)
    · exact absurd h fallback_ne_safety
  · intro hall
    refine Or.inr (Or.inl ?_)
    cases a with
    | none => rw [ageLine_none]
    | some v =>
      have hcond : ¬(v ≠ "" ∧ v ≠ "Not specified") := by
        rcases hall v rfl with h | h <;> simp [h]
      rw [ageLine_some, if_neg hcond]

lemma traitsSentence_mem_iff (l : List String) (a : Option String)
    (ts : List String) (c : String) :
    traitsSentence l ∈ create_system_prompt_lines a ts c ↔
      (ts ≠ [] ∧ String.intercalate ", " l = String.intercalate ", " ts) := by
  rw [mem_create_system_prompt_lines]
  constructor
  · rintro (h | h | ⟨hts, h⟩ | ⟨hc, h⟩ | h)
    · exact absurd h (traitsSentence_notMem_persona l)
    · cases a with
      | none => rw [ageLine_none] at h; exact absurd h (traitsSentence_ne_fallback l)
      | some v =>
        rw [ageLine_some] at h
        by_cases hv : v ≠ "" ∧ v ≠ "Not specified"
        · rw [if_pos hv] at h
          exact absurd h.symm (ageSentence_ne_traits v l)
        · rw [if_neg hv] at h
          exact absurd h (traitsSentence_ne_fallback l)
    · exact ⟨hts, traitsSentence_eq h⟩
    · exact absurd h (traitsSentence_ne_challenges l _)
    · exact absurd h (traitsSentence_ne_safety l)
  · rintro ⟨hts, heq⟩
    refine Or.inr (Or.inr (Or.inl ⟨hts, ?_⟩))
    unfold traitsSentence
    rw [heq]

lemma challengesSentence_mem_iff (t : String) (a : Option String)
    (ts : List String) (c : String) :
    challengesSentence t ∈ create_system_prompt_lines a ts c ↔
      ((c ≠ "" ∧ pyStrip c ≠ "") ∧ t = pyStrip c) := by
  rw [mem_create_system_prompt_lines]
  constructor
  · rintro (h | h | ⟨hts, h⟩ | ⟨hc, h⟩ | h)
    · exact absurd h (challengesSentence_notMem_persona t)
    · cases a with
      | none => rw [ageLine_none] at h; exact absurd h (challengesSentence_ne_fallback t)
      | some v =>
        rw [ageLine_some] at h
        by_cases hv : v ≠ "" ∧ v ≠ "Not specified"
        · rw [if_pos hv] at h
          exact absurd h.symm (ageSentence_ne_challenges v t)
        · rw [if_neg hv] at h
          exact absurd h (challengesSentence_ne_fallback t)
    · exact absurd h.symm (traitsSentence_ne_challenges ts t)
    · exact ⟨hc, challengesSentence_inj h⟩
    · exact absurd h (challengesSentence_ne_safety t)
  · rintro ⟨hc, rfl⟩
    exact Or.inr (Or.inr (Or.inr (Or.inl ⟨hc, rfl⟩)))

lemma pyStrip_empty : pyStrip "" = "" := rfl

lemma ne_empty_of_pyStrip_ne_empty {c : String} (h : pyStrip c ≠ "") : c ≠ "" := by
  intro hc
  exact h (hc ▸ pyStrip_empty)

/-- Message roles of the transcript. -/
inductive Role where
  | system
  | user
  | assistant
deriving DecidableEq

/-- A transcript entry: a role/content pair (the Python dict
with keys "role" and "content"). -/
structure Message where
  role : Role
  content : String
deriving DecidableEq

/-- The Streamlit session state fields initialized in main.py lines 90-96.
The opaque Groq client handle is modelled by whether it is set. -/
structure SessionState where
  form_completed : Bool
  child_age : Option String
  child_temperament : List String
  current_challenges : String
  messages : List Message
  client : Bool
deriving DecidableEq

/-- The session state created at session start (main.py lines 90-96). -/
def initState : SessionState :=
  { form_completed := false, child_age := none, child_temperament := [],
    current_challenges := "", messages := [], client := false }

/-- The request sent to the chat-completion endpoint (main.py lines 36-44):
the full message sequence plus the fixed sampling constants.  The literal 0.7
is modelled as the rational 7/10. -/
structure CompletionParams where
  messages : List Message
  model : String
  temperature : ℚ
  max_tokens : Nat
  top_p : ℚ
  stop : Option String
  stream : Bool
deriving DecidableEq

/-- The concrete request built by `get_groq_response` (main.py lines 36-44). -/
def completionRequest (messages : List Message) (model : String) : CompletionParams :=
  { messages := messages, model := model, temperature := 7/10, max_tokens := 1500,
    top_p := 1, stop := none, stream := false }

/-- Outcome of one remote call: the create call raises, or returns a message
whose content is a string or null. -/
inductive ApiOutcome where
  | failure
  | success (content : Option String)
deriving DecidableEq

/-- Function get_groq_response (main.py lines 33-48): build the request, invoke the remote
service, and on an exception show an error and return None.  The remote service is
an oracle argument; the result records the returned content, whether an error was
displayed, and the request that was issued. -/
def get_groq_response (oracle : CompletionParams → ApiOutcome)
    (messages : List Message) (model : String) :
    Option String × Bool × CompletionParams :=
  let req := completionRequest messages model
  match oracle req with
  | ApiOutcome.failure => (none, true, req)
  | ApiOutcome.success content => (content, false, req)

/-- Observable result of one execution of the chat-input block: the new session
state, whether an error was displayed, and the request issued (none when no
prompt was submitted). -/
structure TurnResult where
  state : SessionState
  errorShown : Bool
  request : Option CompletionParams
deriving DecidableEq

/-- The chat-input block (main.py lines 205-226): when the submitted prompt is
truthy, append the user message, call `get_groq_response` on the full transcript,
and append the response as an assistant message only when it is truthy. -/
def chat_input_step (s : SessionState) (prompt : Option String)
    (oracle : CompletionParams → ApiOutcome) : TurnResult :=
  match prompt with
  | none => { state := s, errorShown := false, request := none }
  | some p =>
    if p = "" then { state := s, errorShown := false, request := none }
    else
      let s1 := { s with messages := s.messages ++ [{ role := Role.user, content := p }] }
      let r := get_groq_response oracle s1.messages DEFAULT_MODEL
      match r.1 with
      | some resp =>
        if resp = "" then { state := s1, errorShown := r.2.1, request := some r.2.2 }
        else
          { state := { s1 with
              messages := s1.messages ++ [{ role := Role.assistant, content := resp }] },
            errorShown := r.2.1, request := some r.2.2 }
      | none => { state := s1, errorShown := r.2.1, request := some r.2.2 }

/-- The personalized welcome message (main.py lines 171-182): parts are collected
in order and joined with single spaces. -/
def welcome_message (child_age : Option String) (child_temperament : List String)
    (current_challenges : String) : String :=
  let parts := ["Hello! I'm ready to help with parenting tips"]
  let parts := parts ++
    (match child_age with
     | some r => if r ≠ "" ∧ r ≠ "Not specified" then ["for your " ++ pyLower r] else []
     | none => [])
  let parts := parts ++
    (if child_temperament ≠ [] then
      [" (described as " ++ (pyLower (String.intercalate ", " child_temperament) ++ ")")]
     else [])
  let parts := parts ++ ["."]
  let parts := parts ++
    (if current_challenges ≠ "" ∧ pyStrip current_challenges ≠ "" then
      [" I see you're interested in '" ++ (pyStrip current_challenges ++ "'.")]
     else [])
  let parts := parts ++ [" How can I assist you today?"]
  String.intercalate " " parts

/-- The initialization block guarding the chat page (main.py lines 156-182), for the
case where client acquisition succeeds: set the client handle, and when the
transcript is empty seed it with the system message followed by the assistant
welcome message. -/
def chat_init (s : SessionState) : SessionState :=
  if s.client = false then
    let s1 : SessionState := { s with client := true }
    if s1.messages = [] then
      let system_prompt :=
        create_system_prompt s.child_age s.child_temperament s.current_challenges
      let msgs : List Message := [{ role := Role.system, content := system_prompt }]
      let msgs := msgs ++
        [{ role := Role.assistant,
           content := welcome_message s.child_age s.child_temperament s.current_challenges }]
      { s1 with messages := msgs }
    else s1
  else s

/-- The reset button handler (main.py lines 232-240): set every session field
back to its default. -/
def reset_state (s : SessionState) : SessionState :=
  { s with form_completed := false, child_age := none, child_temperament := [],
           current_challenges := "", messages := [], client := false }

/-- One user-interaction event of the session state machine (section 4.1 of the
spec): form submission, chat initialization (succeeding or halting), a chat turn,
or the reset action. -/
inductive SessStep : SessionState → SessionState → Prop where
  | submit (s : SessionState) (age : String) (traits : List String) (chall : String)
      (hf : s.form_completed = false) (hage : age ∈ age_options) :
      SessStep s { s with child_age := some age, child_temperament := traits,
                          current_challenges := chall, form_completed := true }
  | init_success (s : SessionState) (hf : s.form_completed = true)
      (hc : s.client = false) : SessStep s (chat_init s)
  | init_halt (s : SessionState) (hf : s.form_completed = true)
      (hc : s.client = false) : SessStep s s
  | turn (s : SessionState) (prompt : Option String)
      (oracle : CompletionParams → ApiOutcome) (hf : s.form_completed = true)
      (hc : s.client = true) : SessStep s (chat_input_step s prompt oracle).state
  | reset (s : SessionState) (hf : s.form_completed = true) :
      SessStep s (reset_state s)

/-- A session state reachable from the initial state by interaction events. -/
def Reachable (s : SessionState) : Prop :=
  Relation.ReflTransGen SessStep initState s

lemma chat_init_form_completed (s : SessionState) :
    (chat_init s).form_completed = s.form_completed := by
  by_cases hc : s.client = false
  · by_cases hm : s.messages = [] <;> simp [chat_init, hc, hm]
  · simp [chat_init, hc]

lemma chat_input_step_form_completed (s : SessionState) (prompt : Option String)
    (oracle : CompletionParams → ApiOutcome) :
    (chat_input_step s prompt oracle).state.form_completed = s.form_completed := by
  unfold chat_input_step
  cases prompt
  · rfl
  · dsimp only
    split
    · rfl
    · split
      · split <;> rfl
      · rfl

lemma reset_state_eq_initState (s : SessionState) : reset_state s = initState := rfl

/-- C1 counterexample: for the submission (ageRange="Not specified", traits=[],
challenges="  ") the system prompt consists of 7 sentences, not the 6 the claim
describes (four persona sentences plus the fallback age sentence plus the safety
sentence): the code has five fixed persona sentences, not four. -/
theorem claim_c1_counterexample :
    ¬ ((create_system_prompt_lines (some "Not specified") [] "  ").length = 6) := by
  decide

/-- C1 (amended): for the submission (ageRange="Not specified", traits=[],
challenges="  "), the system prompt contains exactly the five fixed persona
sentences, the fallback age sentence, and the closing safety sentence, and
contains no traits sentence and no challenges sentence. -/
theorem claim_c1_amended :
    create_system_prompt_lines (some "Not specified") [] "  " =
        personaLines ++ [fallbackAgeSentence, safetySentence]
    ∧ personaLines.length = 5
    ∧ (∀ l, traitsSentence l ∉ create_system_prompt_lines (some "Not specified") [] "  ")
    ∧ (∀ t, challengesSentence t ∉ create_system_prompt_lines (some "Not specified") [] "  ") := by
  refine ⟨rfl, rfl, ?_, ?_⟩
  · intro l hl
    exact ((traitsSentence_mem_iff l _ _ _).1 hl).1 rfl
  · intro t ht
    exact (((challengesSentence_mem_iff t _ _ _).1 ht).1).2 (by decide)

/-- C2: for every ageRange in the form enumeration together with null, the prompt
contains the age-tailoring sentence iff the ageRange is present and not
"Not specified", and contains the fixed fallback sentence otherwise. -/
theorem claim_c2 (a : Option String) (ha : a ∈ ageInputs) (ts : List String) (c : String) :
    ((∃ r, a = some r ∧ ageSentence r ∈ create_system_prompt_lines a ts c) ↔
      (a ≠ none ∧ a ≠ some "Not specified"))
    ∧ (fallbackAgeSentence ∈ create_system_prompt_lines a ts c ↔
      (a = none ∨ a = some "Not specified")) := by
  fin_cases ha <;>
    constructor <;>
      simp [ageSentence_mem_iff, fallback_mem_iff]

/-- C3: for every traits list, the prompt contains the traits sentence iff the
list is non-empty, and any traits sentence the prompt contains lists exactly the
input traits comma-joined in input order. -/
theorem claim_c3 (a : Option String) (ts : List String) (c : String) :
    (traitsSentence ts ∈ create_system_prompt_lines a ts c ↔ ts ≠ [])
    ∧ ∀ l, traitsSentence l ∈ create_system_prompt_lines a ts c →
        String.intercalate ", " l = String.intercalate ", " ts := by
  constructor
  · rw [traitsSentence_mem_iff]
    simp
  · intro l hl
    exact ((traitsSentence_mem_iff l a ts c).1 hl).2

/-- C4: for every challenges string, the prompt contains the challenges sentence
iff the trimmed string is non-empty, and the text quoted in any challenges
sentence the prompt contains equals the trimmed string. -/
theorem claim_c4 (a : Option String) (ts : List String) (c : String) :
    (challengesSentence (pyStrip c) ∈ create_system_prompt_lines a ts c ↔ pyStrip c ≠ "")
    ∧ ∀ t, challengesSentence t ∈ create_system_prompt_lines a ts c → t = pyStrip c := by
  constructor
  · rw [challengesSentence_mem_iff]
    constructor
    · rintro ⟨⟨_, h2⟩, _⟩
      exact h2
    · intro h
      exact ⟨⟨ne_empty_of_pyStrip_ne_empty h, h⟩, rfl⟩
  · intro t ht
    exact ((challengesSentence_mem_iff t a ts c).1 ht).2

/-- C5: create_system_prompt is a pure function of its three inputs, so two calls
on identical inputs yield identical output strings. -/
theorem claim_c5 (a : Option String) (ts : List String) (c : String) :
    create_system_prompt a ts c = create_system_prompt a ts c := rfl

lemma chat_input_step_request (s : SessionState) (p : String)
    (oracle : CompletionParams → ApiOutcome) (hp : p ≠ "") :
    (chat_input_step s (some p) oracle).request =
      some (completionRequest (s.messages ++ [{ role := Role.user, content := p }])
        DEFAULT_MODEL) := by
  simp only [chat_input_step, get_groq_response]
  rw [if_neg hp]
  rcases hor : oracle (completionRequest
      (s.messages ++ [{ role := Role.user, content := p }]) DEFAULT_MODEL) with _ | content
  · simp [hor]
  · rcases content with _ | resp
    · simp [hor]
    · by_cases hr : resp = "" <;> simp [hor, hr]

/-- C6: when the remote call raises during a turn, the transcript keeps the
just-appended user message as its last element, no assistant message is appended,
an error is displayed, nothing else in the session state changes, and a
subsequent submitted prompt issues a request against the resulting transcript
(the failed turn is not re-sent). -/
theorem claim_c6 (s : SessionState) (p : String) (oracle : CompletionParams → ApiOutcome)
    (hp : p ≠ "")
    (hfail : oracle (completionRequest (s.messages ++ [{ role := Role.user, content := p }])
        DEFAULT_MODEL) = ApiOutcome.failure) :
    chat_input_step s (some p) oracle =
      { state := { s with messages := s.messages ++ [{ role := Role.user, content := p }] },
        errorShown := true,
        request := some (completionRequest
          (s.messages ++ [{ role := Role.user, content := p }]) DEFAULT_MODEL) }
    ∧ ∀ p', p' ≠ "" →
      (chat_input_step (chat_input_step s (some p) oracle).state (some p') oracle).request =
        some (completionRequest
          ((s.messages ++ [{ role := Role.user, content := p }])
            ++ [{ role := Role.user, content := p' }]) DEFAULT_MODEL) := by
  have hstate : chat_input_step s (some p) oracle =
      { state := { s with messages := s.messages ++ [{ role := Role.user, content := p }] },
        errorShown := true,
        request := some (completionRequest
          (s.messages ++ [{ role := Role.user, content := p }]) DEFAULT_MODEL) } := by
    simp only [chat_input_step, get_groq_response]
    rw [if_neg hp]
    rw [hfail]
  refine ⟨hstate, ?_⟩
  intro p' hp'
  rw [hstate, chat_input_step_request _ p' oracle hp']

/-- C9: when the remote call succeeds but returns empty content, no assistant
message is appended, no error is displayed, the turn ends with the user message
last, and the result is identical to the one for null content. -/
theorem claim_c9 (s : SessionState) (p : String) (o1 o2 : CompletionParams → ApiOutcome)
    (hp : p ≠ "")
    (h1 : o1 (completionRequest (s.messages ++ [{ role := Role.user, content := p }])
        DEFAULT_MODEL) = ApiOutcome.success (some ""))
    (h2 : o2 (completionRequest (s.messages ++ [{ role := Role.user, content := p }])
        DEFAULT_MODEL) = ApiOutcome.success none) :
    chat_input_step s (some p) o1 =
      { state := { s with messages := s.messages ++ [{ role := Role.user, content := p }] },
        errorShown := false,
        request := some (completionRequest
          (s.messages ++ [{ role := Role.user, content := p }]) DEFAULT_MODEL) }
    ∧ chat_input_step s (some p) o1 = chat_input_step s (some p) o2 := by
  have e1 : chat_input_step s (some p) o1 =
      { state := { s with messages := s.messages ++ [{ role := Role.user, content := p }] },
        errorShown := false,
        request := some (completionRequest
          (s.messages ++ [{ role := Role.user, content := p }]) DEFAULT_MODEL) } := by
    simp only [chat_input_step, get_groq_response]
    rw [if_neg hp]
    rw [h1]
    rfl
  have e2 : chat_input_step s (some p) o2 =
      { state := { s with messages := s.messages ++ [{ role := Role.user, content := p }] },
        errorShown := false,
        request := some (completionRequest
          (s.messages ++ [{ role := Role.user, content := p }]) DEFAULT_MODEL) } := by
    simp only [chat_input_step, get_groq_response]
    rw [if_neg hp]
    rw [h2]
  exact ⟨e1, e1.trans e2.symm⟩

/-- C10: every per-turn remote request fixes max_tokens at 1500, temperature at
0.7, top_p at 1, no stop sequence, no streaming, and carries the full transcript
(system message included) as the message sequence; the constants do not depend
on the state or the turn. -/
theorem claim_c10 (s : SessionState) (p : String)
    (oracle : CompletionParams → ApiOutcome) (hp : p ≠ "") :
    (chat_input_step s (some p) oracle).request =
      some { messages := s.messages ++ [{ role := Role.user, content := p }],
             model := DEFAULT_MODEL, temperature := 7/10, max_tokens := 1500,
             top_p := 1, stop := none, stream := false } :=
  chat_input_step_request s p oracle hp

/-- C7: in every reachable session state, an uncompleted form implies an empty
transcript and an unset client handle; and the reset handler restores the
initial session state from any prior state. -/
theorem claim_c7 :
    (∀ s : SessionState, Reachable s → s.form_completed = false →
      s.messages = [] ∧ s.client = false)
    ∧ ∀ s : SessionState, reset_state s = initState := by
  constructor
  · intro s hreach
    induction hreach with
    | refl => intro _; exact ⟨rfl, rfl⟩
    | tail hab hbc ih =>
      cases hbc with
      | submit age traits chall hf hage =>
        intro hfc
        simp at hfc
      | init_success hf hc =>
        intro hfc
        rw [chat_init_form_completed, hf] at hfc
        cases hfc
      | init_halt hf hc =>
        exact ih
      | turn prompt oracle hf hc =>
        intro hfc
        rw [chat_input_step_form_completed, hf] at hfc
        cases hfc
      | reset hf =>
        intro _
        rw [reset_state_eq_initState]
        exact ⟨rfl, rfl⟩
  · exact reset_state_eq_initState

lemma age_options_ne_empty : ∀ r ∈ age_options, r ≠ "" := by decide

/-- C8: on first arrival in the chat state with an unset client and an empty
transcript, after successful initialization the transcript is exactly one
system message composed by create_system_prompt followed by one assistant
welcome message; and the welcome message is the space-join, in fixed order, of
the greeting, the age clause (only when the age range differs from the
sentinel), the lower-cased comma-joined temperament clause (only when traits
are non-empty), a period, the challenges clause (only when the trimmed text is
non-blank), and the closing question. -/
theorem claim_c8 (s : SessionState) (r : String)
    (hc : s.client = false) (hm : s.messages = [])
    (ha : s.child_age = some r) (hr : r ∈ age_options) :
    (chat_init s).messages =
      [{ role := Role.system,
         content := create_system_prompt s.child_age s.child_temperament s.current_challenges },
       { role := Role.assistant,
         content := welcome_message s.child_age s.child_temperament s.current_challenges }]
    ∧ welcome_message s.child_age s.child_temperament s.current_challenges =
        String.intercalate " "
          (["Hello! I'm ready to help with parenting tips"]
            ++ (if r ≠ "Not specified" then ["for your " ++ pyLower r] else [])
            ++ (if s.child_temperament ≠ [] then
                  [" (described as " ++
                    (pyLower (String.intercalate ", " s.child_temperament) ++ ")")]
                else [])
            ++ ["."]
            ++ (if pyStrip s.current_challenges ≠ "" then
                  [" I see you're interested in '" ++
                    (pyStrip s.current_challenges ++ "'.")]
                else [])
            ++ [" How can I assist you today?"]) := by
  have hr' : r ≠ "" := age_options_ne_empty r hr
  constructor
  · simp [chat_init, hc, hm]
  · rw [ha]
    by_cases h1 : r = "Not specified" <;>
      by_cases h3 : pyStrip s.current_challenges = ""
    · simp [welcome_message, h1, h3]
    · simp [welcome_message, h1, h3, ne_empty_of_pyStrip_ne_empty h3]
    · simp [welcome_message, h1, hr', h3]
    · simp [welcome_message, h1, hr', h3, ne_empty_of_pyStrip_ne_empty h3]

theorem claim_c1_witness :
    traitsSentence ["Distractible"] ∉
      create_system_prompt_lines (some "Not specified") [] "  " :=
  claim_c1_amended.2.2.1 ["Distractible"]

theorem claim_c2_witness :
    (some "Toddler (1-3 years)" : Option String) ∈ ageInputs ∧
    (((∃ r, (some "Toddler (1-3 years)" : Option String) = some r ∧
        ageSentence r ∈
          create_system_prompt_lines (some "Toddler (1-3 years)") ["Shy / Cautious"] "") ↔
      ((some "Toddler (1-3 years)" : Option String) ≠ none ∧
        (some "Toddler (1-3 years)" : Option String) ≠ some "Not specified"))
    ∧ (fallbackAgeSentence ∈
        create_system_prompt_lines (some "Toddler (1-3 years)") ["Shy / Cautious"] "" ↔
      ((some "Toddler (1-3 years)" : Option String) = none ∨
        (some "Toddler (1-3 years)" : Option String) = some "Not specified"))) :=
  ⟨by decide, claim_c2 (some "Toddler (1-3 years)") (by decide) ["Shy / Cautious"] ""⟩

theorem claim_c3_witness :
    traitsSentence ["Shy / Cautious"] ∈
      create_system_prompt_lines none ["Shy / Cautious"] "" :=
  (claim_c3 none ["Shy / Cautious"] "").1.mpr (by decide)

theorem claim_c4_witness :
    challengesSentence (pyStrip " tantrums ") ∈
      create_system_prompt_lines none [] " tantrums " :=
  (claim_c4 none [] " tantrums ").1.mpr (by decide)

theorem claim_c6_witness :
    ("Hi" ≠ "") ∧
    (chat_input_step initState (some "Hi") (fun _ => ApiOutcome.failure) =
        { state := { initState with
            messages := initState.messages ++ [{ role := Role.user, content := "Hi" }] },
          errorShown := true,
          request := some (completionRequest
            (initState.messages ++ [{ role := Role.user, content := "Hi" }]) DEFAULT_MODEL) }
      ∧ ∀ p', p' ≠ "" →
        (chat_input_step
            (chat_input_step initState (some "Hi") (fun _ => ApiOutcome.failure)).state
            (some p') (fun _ => ApiOutcome.failure)).request =
          some (completionRequest
            ((initState.messages ++ [{ role := Role.user, content := "Hi" }])
              ++ [{ role := Role.user, content := p' }]) DEFAULT_MODEL)) :=
  ⟨by decide, claim_c6 initState "Hi" (fun _ => ApiOutcome.failure) (by decide) rfl⟩

theorem claim_c7_witness :
    Reachable initState ∧ (initState.messages = [] ∧ initState.client = false) :=
  ⟨Relation.ReflTransGen.refl, claim_c7.1 initState Relation.ReflTransGen.refl rfl⟩

theorem claim_c8_witness :
    ("Toddler (1-3 years)" ∈ age_options) ∧
    ((chat_init { form_completed := true, child_age := some "Toddler (1-3 years)",
                  child_temperament := ["Shy / Cautious"],
                  current_challenges := " tantrums ",
                  messages := [], client := false }).messages =
      [{ role := Role.system,
         content := create_system_prompt (some "Toddler (1-3 years)")
           ["Shy / Cautious"] " tantrums " },
       { role := Role.assistant,
         content := welcome_message (some "Toddler (1-3 years)")
           ["Shy / Cautious"] " tantrums " }]
    ∧ welcome_message (some "Toddler (1-3 years)") ["Shy / Cautious"] " tantrums " =
        String.intercalate " "
          (["Hello! I'm ready to help with parenting tips"]
            ++ (if ("Toddler (1-3 years)" : String) ≠ "Not specified" then
                  ["for your " ++ pyLower "Toddler (1-3 years)"] else [])
            ++ (if (["Shy / Cautious"] : List String) ≠ [] then
                  [" (described as " ++
                    (pyLower (String.intercalate ", " ["Shy / Cautious"]) ++ ")")]
                else [])
            ++ ["."]
            ++ (if pyStrip " tantrums " ≠ "" then
                  [" I see you're interested in '" ++ (pyStrip " tantrums " ++ "'.")]
                else [])
            ++ [" How can I assist you today?"])) :=
  ⟨by decide,
    claim_c8 { form_completed := true, child_age := some "Toddler (1-3 years)",
               child_temperament := ["Shy / Cautious"],
               current_challenges := " tantrums ",
               messages := [], client := false }
      "Toddler (1-3 years)" rfl rfl rfl (by decide)⟩

theorem claim_c9_witness :
    ("Hello" ≠ "") ∧
    (chat_input_step initState (some "Hello") (fun _ => ApiOutcome.success (some "")) =
        { state := { initState with
            messages := initState.messages ++ [{ role := Role.user, content := "Hello" }] },
          errorShown := false,
          request := some (completionRequest
            (initState.messages ++ [{ role := Role.user, content := "Hello" }]) DEFAULT_MODEL) }
      ∧ chat_input_step initState (some "Hello") (fun _ => ApiOutcome.success (some "")) =
          chat_input_step initState (some "Hello") (fun _ => ApiOutcome.success none)) :=
  ⟨by decide, claim_c9 initState "Hello" (fun _ => ApiOutcome.success (some ""))
    (fun _ => ApiOutcome.success none) (by decide) rfl rfl⟩

theorem claim_c10_witness :
    ("How are you?" ≠ "") ∧
    (chat_input_step initState (some "How are you?")
        (fun _ => ApiOutcome.success (some "ok"))).request =
      some { messages := initState.messages ++ [{ role := Role.user, content := "How are you?" }],
             model := DEFAULT_MODEL, temperature := 7/10, max_tokens := 1500,
             top_p := 1, stop := none, stream := false } :=
  ⟨by decide, claim_c10 initState "How are you?"
    (fun _ => ApiOutcome.success (some "ok")) (by decide)⟩
